import Mathlib

/-!
Shallow embedding of the data-quality validation agent
(`src/agents/data_quality_validation.py`) and of the audit-trail sink
(`src/AuditTrail.py`).

Modelling conventions:
* pandas floats are modelled as exact rationals (`ℚ`); `NaN` / `None`
  missing markers are modelled as `Option.none`;
* a pandas column is modelled by its dtype together with its cells:
  `int64`, `float64`, `bool` and `object` dtypes cover the inputs the
  code distinguishes (`is_numeric_dtype`, `is_object_dtype`,
  `select_dtypes(include=[np.number])`);
* `round(x, 4)` and the `:.1f` format are modelled with round-half-even
  on rationals;
* the in-memory content of the audit JSON file is modelled as a list of
  log entries; `log_action` appends, `query_logs` filters.
-/

namespace DQ

/-- Constructor arguments of `DataQualityValidationAgent.__init__`. -/
structure Config where
  missing_warn_threshold : ℚ
  missing_critical_threshold : ℚ
  outlier_iqr_multiplier : ℚ
deriving Repr, DecidableEq

/-- The default constructor arguments (0.10, 0.30, 1.5). -/
def defaultConfig : Config := ⟨1/10, 3/10, 3/2⟩

/-- A Python value stored in an object-dtype cell. -/
inductive PyVal
  | pint (n : ℤ)
  | pfloat (q : ℚ)
  | pbool (b : Bool)
  | pstr (s : String)
deriving Repr, DecidableEq

/-- The native Python type tag of a value, as seen by `map(type)`. -/
inductive PyType
  | tInt
  | tFloat
  | tBool
  | tStr
deriving Repr, DecidableEq

/-- `type(x)` for an object cell. -/
def PyVal.ptype : PyVal → PyType
  | .pint _ => .tInt
  | .pfloat _ => .tFloat
  | .pbool _ => .tBool
  | .pstr _ => .tStr

/-- A pandas column: dtype plus cells.  `int64` and `bool` columns cannot
hold a missing marker; `float64` holds `NaN` (`none`); `object` holds
arbitrary Python values or `None`/`NaN` (`none`). -/
inductive Column
  | intCol (cells : List ℤ)
  | floatCol (cells : List (Option ℚ))
  | boolCol (cells : List Bool)
  | objCol (cells : List (Option PyVal))
deriving Repr, DecidableEq

/-- `len(series)`. -/
def Column.length : Column → ℕ
  | .intCol l => l.length
  | .floatCol l => l.length
  | .boolCol l => l.length
  | .objCol l => l.length

/-- `series.isnull().sum()`. -/
def Column.missingCount : Column → ℕ
  | .intCol _ => 0
  | .boolCol _ => 0
  | .floatCol l => (l.filter Option.isNone).length
  | .objCol l => (l.filter Option.isNone).length

/-- `pd.api.types.is_numeric_dtype(series)`: true for the int64, float64
and bool dtypes, false for object. -/
def Column.is_numeric_dtype : Column → Bool
  | .objCol _ => false
  | _ => true

/-- Whether the dtype is selected by `select_dtypes(include=[np.number])`:
int64 and float64 only — bool is NOT an `np.number` subdtype. -/
def Column.is_np_number_dtype : Column → Bool
  | .intCol _ => true
  | .floatCol _ => true
  | _ => false

/-- `isinstance(x, (int, float, np.number))` for an `np.int64` scalar:
`np.int64` is an `np.number`. -/
def isinstance_number_int64 : Bool := true

/-- `isinstance(x, (int, float, np.number))` for an `np.float64` scalar
(also for the `NaN` payload, which is a `float`): true. -/
def isinstance_number_float64 : Bool := true

/-- `isinstance(x, (int, float, np.number))` for an `np.bool_` scalar:
`np.bool_` subclasses neither `int`, `float` nor `np.number`. -/
def isinstance_number_npbool : Bool := false

/-- `series.apply(lambda x: not isinstance(x, (int, float, np.number))
and not pd.isnull(x)).sum()` for a numeric-dtype column.  `NaN` cells of
a float64 column satisfy `pd.isnull` (and are `float` anyway), so they
never count. -/
def Column.non_numeric_count : Column → ℕ
  | .intCol l => (l.filter (fun _ => !isinstance_number_int64)).length
  | .floatCol l => ((l.filterMap id).filter (fun _ => !isinstance_number_float64)).length
  | .boolCol l => (l.filter (fun _ => !isinstance_number_npbool)).length
  | .objCol _ => 0

/-- A pandas DataFrame: a row count (the index length) and an ordered
list of named columns. -/
structure DataFrame where
  nrows : ℕ
  cols : List (String × Column)
deriving Repr, DecidableEq

/-- Well-formedness: every column has exactly `nrows` cells and column
names are pairwise distinct. -/
def DataFrame.WF (df : DataFrame) : Prop :=
  (∀ p ∈ df.cols, p.2.length = df.nrows) ∧ (df.cols.map Prod.fst).Nodup

instance (df : DataFrame) : Decidable df.WF := by
  unfold DataFrame.WF; infer_instance

/-- `df.empty`: true iff any axis has length 0 (zero rows OR zero
columns). -/
def DataFrame.emptyDf (df : DataFrame) : Bool :=
  df.nrows == 0 || df.cols.isEmpty

/-- Round-half-even to an integer, the tie-breaking rule of Python
`round` (floats modelled as exact rationals). -/
def roundHalfEven (x : ℚ) : ℤ :=
  let f := ⌊x⌋
  let r := x - (f : ℚ)
  if r < 1/2 then f
  else if 1/2 < r then f + 1
  else if f % 2 = 0 then f else f + 1

/-- `round(x, d)`. -/
def roundTo (d : ℕ) (x : ℚ) : ℚ :=
  (roundHalfEven (x * 10 ^ d) : ℚ) / 10 ^ d

/-- `f"{x:.1f}"` for a nonnegative float modelled as a rational. -/
def fmt1 (x : ℚ) : String :=
  let m := roundHalfEven (x * 10)
  toString (m / 10) ++ "." ++ toString (m % 10)

/-- `_dataset_summary`: row count, column count, ordered column names. -/
structure Summary where
  num_rows : ℕ
  num_columns : ℕ
  columns : List String
deriving Repr, DecidableEq

def dataset_summary (df : DataFrame) : Summary :=
  ⟨df.nrows, df.cols.length, df.cols.map Prod.fst⟩

/-- `_check_missing_values`: each column with at least one null cell is
mapped to `round(isnull().mean(), 4)`, in column order. -/
def check_missing_values (df : DataFrame) : List (String × ℚ) :=
  df.cols.filterMap (fun p =>
    if 0 < p.2.missingCount then
      some (p.1, roundTo 4 ((p.2.missingCount : ℚ) / (p.2.length : ℚ)))
    else none)

/-- Whether a Python string parses as a number (the coercion performed
per element by `pd.to_numeric`): optional sign, digits, optional
fractional part. -/
def strIsNumeric (s : String) : Bool :=
  let t := if s.startsWith "-" || s.startsWith "+" then s.drop 1 else s
  match t.splitOn "." with
  | [a] => a.length > 0 && a.all Char.isDigit
  | [a, b] => (a.length > 0 || b.length > 0) && a.all Char.isDigit && b.all Char.isDigit
  | _ => false

/-- Whether one object cell is coercible by `pd.to_numeric`: ints,
floats and bools coerce; strings coerce iff they parse as numbers. -/
def coercible : PyVal → Bool
  | .pint _ => true
  | .pfloat _ => true
  | .pbool _ => true
  | .pstr s => strIsNumeric s

/-- `pd.to_numeric(series.dropna())` succeeds (does not raise) iff every
non-null value is coercible; the `except` branch of
`_check_type_consistency` corresponds to this being `false`. -/
def to_numeric_ok (cells : List (Option PyVal)) : Bool :=
  (cells.filterMap id).all coercible

/-- `series.dropna().map(type).nunique()`. -/
def nuniqueTypes (cells : List (Option PyVal)) : ℕ :=
  ((cells.filterMap id).map PyVal.ptype).dedup.length

/-- The loop body of `_check_type_consistency` for one named column:
numeric-dtype columns are flagged when some non-null cell fails the
`isinstance` probe; object-dtype columns are flagged when
`pd.to_numeric` raises AND the non-null values span more than one
native type. -/
def type_flag (p : String × Column) : Option (String × String) :=
  if p.2.is_numeric_dtype then
    if 0 < p.2.non_numeric_count then
      some (p.1, "Numeric column contains non-numeric values")
    else none
  else
    match p.2 with
    | .objCol cells =>
        if to_numeric_ok cells then none
        else if 1 < nuniqueTypes cells then
          some (p.1, "Mixed data types in column")
        else none
    | _ => none

/-- `_check_type_consistency`: the per-column flags, in column order. -/
def check_type_consistency (df : DataFrame) : List (String × String) :=
  df.cols.filterMap type_flag

/-- The non-null numeric values of a column, in row order, when the
dtype is selected by `select_dtypes(include=[np.number])`
(`series.dropna()`). -/
def Column.numericValues : Column → Option (List ℚ)
  | .intCol l => some (l.map (fun n => (n : ℚ)))
  | .floatCol l => some (l.filterMap id)
  | .boolCol _ => none
  | .objCol _ => none

/-- `series.quantile(q)` on an already sorted list, with the default
linear interpolation of numpy/pandas: position `q*(n-1)` between order
statistics. -/
def quantileSorted (s : List ℚ) (q : ℚ) : ℚ :=
  let pos := q * ((s.length : ℚ) - 1)
  let i := (⌊pos⌋).toNat
  let frac := pos - ((⌊pos⌋ : ℤ) : ℚ)
  let a := s.getD i 0
  let b := s.getD (i + 1) a
  a + frac * (b - a)

/-- `series.quantile(q)`. -/
def quantile (l : List ℚ) (q : ℚ) : ℚ :=
  quantileSorted (List.insertionSort (· ≤ ·) l) q

/-- The IQR bounds computed by `_detect_outliers` for one column. -/
structure OutlierBounds where
  q1 : ℚ
  q3 : ℚ
  iqr : ℚ
  lower : ℚ
  upper : ℚ
deriving Repr, DecidableEq

def outlier_bounds (cfg : Config) (series : List ℚ) : OutlierBounds :=
  let q1 := quantile series (1/4)
  let q3 := quantile series (3/4)
  let iqr := q3 - q1
  ⟨q1, q3, iqr, q1 - cfg.outlier_iqr_multiplier * iqr,
    q3 + cfg.outlier_iqr_multiplier * iqr⟩

/-- `((series < lower) | (series > upper)).sum()`: strict comparisons. -/
def outlier_count (cfg : Config) (series : List ℚ) : ℕ :=
  let b := outlier_bounds cfg series
  (series.filter (fun x => decide (x < b.lower) || decide (b.upper < x))).length

/-- One anomaly record. -/
structure Anomaly where
  method : String
  count : ℕ
  percentage : ℚ
deriving Repr, DecidableEq

/-- The per-column body of `_detect_outliers`: skip empty series, record
only columns with at least one outlier. -/
def detect_outliers_col (cfg : Config) (series : List ℚ) : Option Anomaly :=
  if series.isEmpty then none
  else
    let count := outlier_count cfg series
    if 0 < count then
      some ⟨"IQR", count, roundTo 4 ((count : ℚ) / (series.length : ℚ))⟩
    else none

/-- `_detect_outliers`: iterate the `np.number` columns in order. -/
def detect_outliers (cfg : Config) (df : DataFrame) : List (String × Anomaly) :=
  df.cols.filterMap (fun p =>
    (p.2.numericValues).bind (fun s =>
      (detect_outliers_col cfg s).map (fun a => (p.1, a))))

/-- The blocking-issue string for one critically missing column:
`f"Column '{col}' missing {pct*100:.1f}% of values"`. -/
def missing_msg (col : String) (pct : ℚ) : String :=
  "Column \x27" ++ col ++ "\x27 missing " ++ fmt1 (pct * 100) ++ "% of values"

/-- `_compute_severity`: the for-loop over `missing_values`, then the
three-way branch. -/
def compute_severity (cfg : Config) (missing_values : List (String × ℚ))
    (type_issues : List (String × String)) (anomalies : List (String × Anomaly)) :
    String × List String :=
  let blocking_issues := missing_values.foldl
    (fun acc p =>
      if cfg.missing_critical_threshold ≤ p.2 then acc ++ [missing_msg p.1 p.2]
      else acc) []
  if !blocking_issues.isEmpty then ("HIGH", blocking_issues)
  else if !type_issues.isEmpty || !anomalies.isEmpty then ("MEDIUM", [])
  else ("LOW", [])

/-- The raw validation report returned by `run`. -/
structure RawReport where
  dataset_summary : Summary
  missing_values : List (String × ℚ)
  type_issues : List (String × String)
  anomalies : List (String × Anomaly)
  severity : String
  blocking_issues : List String
deriving Repr, DecidableEq

/-- `_empty_dataset_report`. -/
def empty_dataset_report : RawReport :=
  ⟨⟨0, 0, []⟩, [], [], [], "HIGH", ["Dataset is empty"]⟩

/-- `DataQualityValidationAgent.run`. -/
def run (cfg : Config) (df : DataFrame) : RawReport :=
  if df.emptyDf then empty_dataset_report
  else
    let mv := check_missing_values df
    let ti := check_type_consistency df
    let an := detect_outliers cfg df
    let sb := compute_severity cfg mv ti an
    ⟨dataset_summary df, mv, ti, an, sb.1, sb.2⟩

end DQ

namespace Audit

/-- One record of the audit JSON log. -/
structure LogEntry where
  timestamp : String
  agent_name : String
  action_type : String
  inputs : Option String
  outputs : Option String
  notes : Option String
deriving Repr, DecidableEq

/-- `log_action`: append one entry to the log file content. -/
def log_action (data : List LogEntry) (e : LogEntry) : List LogEntry :=
  data ++ [e]

/-- Python truthiness of an optional string argument (`if agent_name:`):
`None` and the empty string are falsy. -/
def truthyStr : Option String → Bool
  | none => false
  | some s => !(s == "")

/-- `query_logs`: apply the agent-name filter, then the action-type
filter, each only when its argument is truthy. -/
def query_logs (data : List LogEntry) (agent_name action_type : Option String) :
    List LogEntry :=
  let d1 := if truthyStr agent_name then
      data.filter (fun e => e.agent_name == agent_name.getD "")
    else data
  if truthyStr action_type then
    d1.filter (fun e => e.action_type == action_type.getD "")
  else d1

end Audit

namespace DQ

/-- The severity verdict as a function of the other report fields, for a
fixed validator configuration: the fixed empty-dataset report is the
only report whose summary records zero rows, and the non-empty branch
delegates to `_compute_severity`. -/
def severity_of_fields (cfg : Config) (s : Summary) (mv : List (String × ℚ))
    (ti : List (String × String)) (an : List (String × Anomaly)) : String :=
  if s.num_rows == 0 then "HIGH" else (compute_severity cfg mv ti an).1

/-- A one-row dataset that declares no columns (`pd.DataFrame(index=[0])`). -/
def df_zero_cols : DataFrame := ⟨1, []⟩

/-- The ten-value numeric column of the worked IQR example. -/
def df4 : DataFrame := ⟨10, [("col", .intCol [1, 2, 3, 4, 5, 6, 7, 8, 9, 1000])]⟩

/-- The non-null values of that column, as rationals. -/
def s4 : List ℚ := [1, 2, 3, 4, 5, 6, 7, 8, 9, 1000]

/-- An object column mixing a non-numeric string with an int. -/
def obj6 : List (Option PyVal) := [some (.pstr "abc"), some (.pint 1)]

/-- A one-object-column dataset whose column mixes native types. -/
def df6 : DataFrame := ⟨2, [("c", .objCol obj6)]⟩

/-- A one-column boolean-dtype dataset. -/
def df9 : DataFrame := ⟨1, [("b", .boolCol [true])]⟩

/-- A two-row dataset whose only column is half missing. -/
def dfW : DataFrame := ⟨2, [("a", .floatCol [some 1, none])]⟩

end DQ

namespace Audit

/-- Two concrete log records used to instantiate the query theorems. -/
def e1 : LogEntry := ⟨"t1", "X", "validation", none, none, none⟩

def e2 : LogEntry := ⟨"t2", "Y", "validation", none, none, none⟩

end Audit

namespace DQ

/-- C2: for every dataset with zero rows, `run` returns the fixed
empty-dataset report — summary `{0, 0, []}`, empty diagnostics,
severity HIGH, blocking issues `["Dataset is empty"]` — regardless of
how many named columns the dataset declares, taking priority over all
other checks. -/
theorem C2_empty_dataset_report (cfg : Config) (cols : List (String × Column)) :
    run cfg ⟨0, cols⟩ = empty_dataset_report ∧
    (run cfg ⟨0, cols⟩).dataset_summary = ⟨0, 0, []⟩ ∧
    (run cfg ⟨0, cols⟩).missing_values = [] ∧
    (run cfg ⟨0, cols⟩).type_issues = [] ∧
    (run cfg ⟨0, cols⟩).anomalies = [] ∧
    (run cfg ⟨0, cols⟩).severity = "HIGH" ∧
    (run cfg ⟨0, cols⟩).blocking_issues = ["Dataset is empty"] :=
  ⟨rfl, rfl, rfl, rfl, rfl, rfl, rfl⟩

set_option maxRecDepth 4000 in
/-- C4: on the numeric column `[1,2,3,4,5,6,7,8,9,1000]` with the
default multiplier 1.5, the detector computes Q1 = 3.25, Q3 = 7.75 by
linear interpolation, IQR = 4.5, upper bound 14.5, flags exactly the
value 1000, and records `{method: "IQR", count: 1, percentage: 0.1}`. -/
theorem C4_iqr_example :
    (Column.intCol [1, 2, 3, 4, 5, 6, 7, 8, 9, 1000]).numericValues = some s4 ∧
    quantile s4 (1/4) = 13/4 ∧
    quantile s4 (3/4) = 31/4 ∧
    outlier_bounds defaultConfig s4 = ⟨13/4, 31/4, 9/2, -7/2, 29/2⟩ ∧
    s4.filter (fun x =>
      decide (x < (outlier_bounds defaultConfig s4).lower) ||
      decide ((outlier_bounds defaultConfig s4).upper < x)) = [1000] ∧
    outlier_count defaultConfig s4 = 1 ∧
    detect_outliers defaultConfig df4 = [("col", ⟨"IQR", 1, 1/10⟩)] := by
  with_unfolding_all decide

/-- C7: two validator configurations that differ only in the
missing-warn threshold produce identical reports on every dataset: the
warn threshold is stored but never read by `run`. -/
theorem C7_warn_threshold_unused (w1 w2 crit k : ℚ) (df : DataFrame) :
    run ⟨w1, crit, k⟩ df = run ⟨w2, crit, k⟩ df := rfl

/-- C10: passing the empty string for either query filter applies no
filter at all — every logged record is returned — because a filter is
applied only when its argument is truthy. -/
theorem C10_empty_string_no_filter (data : List Audit.LogEntry) :
    Audit.query_logs data (some "") none = data ∧
    Audit.query_logs data none (some "") = data ∧
    Audit.query_logs data (some "") (some "") = data ∧
    Audit.query_logs data none none = data :=
  ⟨rfl, rfl, rfl, rfl⟩

end DQ

namespace DQ

/-- Helper: a flag produced by `type_flag` carries the column's own name. -/
theorem type_flag_key (p : String × Column) (q : String × String)
    (h : type_flag p = some q) : q.1 = p.1 := by
  obtain ⟨name, c⟩ := p
  cases c <;> simp [type_flag, Column.is_numeric_dtype] at h <;>
    first
      | (obtain ⟨-, rfl⟩ := h; rfl)
      | (obtain ⟨-, -, rfl⟩ := h; rfl)

/-- Helper: every entry of `_check_type_consistency` comes from a column
of the same name whose `type_flag` fired. -/
theorem mem_cols_of_mem_cts (df : DataFrame) (q : String × String)
    (h : q ∈ check_type_consistency df) :
    ∃ c, (q.1, c) ∈ df.cols ∧ type_flag (q.1, c) = some q := by
  rw [check_type_consistency, List.mem_filterMap] at h
  obtain ⟨p, hp, hfp⟩ := h
  have hk := type_flag_key p q hfp
  exact ⟨p.2, by rwa [hk, Prod.mk.eta], by rwa [hk, Prod.mk.eta]⟩

/-- C9 counterexample: for the boolean-dtype column `[True]`, which IS a
numeric dtype for pandas while its `np.bool_` cells are not
`int`/`float`/`np.number`, the numeric branch fires and `run` reports
the "Numeric column contains non-numeric values" flag — the claim says
this branch never fires. -/
theorem C9_counterexample :
    (Column.boolCol [true]).is_numeric_dtype = true ∧
    check_type_consistency df9 = [("b", "Numeric column contains non-numeric values")] ∧
    (run defaultConfig df9).type_issues = [("b", "Numeric column contains non-numeric values")] ∧
    (run defaultConfig df9).severity = "MEDIUM" := by
  with_unfolding_all decide

/-- C9 (amended): the numeric-dtype branch of the type-consistency check
fires exactly for nonempty boolean-dtype columns — every nonempty bool
column is flagged "Numeric column contains non-numeric values", and any
column so flagged is a nonempty bool column; for int64- and
float64-dtype columns every non-missing cell is a numpy number, so they
are never flagged with this message. -/
theorem C9_numeric_flag_iff_bool (df : DataFrame) (name : String) :
    (name, "Numeric column contains non-numeric values") ∈ check_type_consistency df ↔
      ∃ cells, cells ≠ [] ∧ (name, Column.boolCol cells) ∈ df.cols := by
  constructor
  · intro h
    obtain ⟨c, hc, hfc⟩ := mem_cols_of_mem_cts df _ h
    cases c with
    | intCol l => simp [type_flag, Column.is_numeric_dtype, Column.non_numeric_count,
        isinstance_number_int64] at hfc
    | floatCol l => simp [type_flag, Column.is_numeric_dtype, Column.non_numeric_count,
        isinstance_number_float64] at hfc
    | boolCol l =>
        simp [type_flag, Column.is_numeric_dtype, Column.non_numeric_count,
          isinstance_number_npbool] at hfc
        exact ⟨l, hfc, hc⟩
    | objCol cells =>
        simp [type_flag, Column.is_numeric_dtype] at hfc
  · rintro ⟨cells, hne, hmem⟩
    rw [check_type_consistency, List.mem_filterMap]
    refine ⟨(name, Column.boolCol cells), hmem, ?_⟩
    simp [type_flag, Column.is_numeric_dtype, Column.non_numeric_count,
      isinstance_number_npbool, hne]

end DQ

namespace DQ

/-- Helper: in an association list with pairwise-distinct keys, a key
determines its value. -/
theorem assoc_value_eq {β : Type} {l : List (String × β)} (hnodup : (l.map Prod.fst).Nodup)
    {k : String} {v1 v2 : β} (h1 : (k, v1) ∈ l) (h2 : (k, v2) ∈ l) : v1 = v2 := by
  induction l with
  | nil => cases h1
  | cons a l ih =>
      rw [List.map_cons, List.nodup_cons] at hnodup
      rcases List.mem_cons.mp h1 with rfl | h1t
      · rcases List.mem_cons.mp h2 with heq | h2t
        · exact (Prod.ext_iff.mp heq).2.symm
        · exact absurd (List.mem_map_of_mem Prod.fst h2t) hnodup.1
      · rcases List.mem_cons.mp h2 with rfl | h2t
        · exact absurd (List.mem_map_of_mem Prod.fst h1t) hnodup.1
        · exact ih hnodup.2 h1t h2t

/-- Helper: the flagged column names are a sublist of the dataset's
column names (so each column appears at most once among the flags). -/
theorem cts_keys_sublist (df : DataFrame) :
    ((check_type_consistency df).map Prod.fst).Sublist (df.cols.map Prod.fst) := by
  rw [check_type_consistency]
  induction df.cols with
  | nil => simp
  | cons a l ih =>
      rw [List.filterMap_cons]
      cases hfa : type_flag a with
      | none => exact ih.cons a.1
      | some q =>
          rw [List.map_cons, List.map_cons, type_flag_key a q hfa]
          exact ih.cons₂ a.1

/-- C6 counterexample: the mixed-type flag fires with the message
"Mixed data types in column" (capital M), not the claimed message
"mixed data types in column". -/
theorem C6_counterexample :
    to_numeric_ok obj6 = false ∧
    1 < nuniqueTypes obj6 ∧
    check_type_consistency df6 = [("c", "Mixed data types in column")] ∧
    ¬ ("c", "mixed data types in column") ∈ check_type_consistency df6 := by
  with_unfolding_all decide

/-- C6 (amended): for every dataset with distinct column names, an
object-dtype column is flagged iff `pd.to_numeric` on its non-missing
values fails and those values span more than one distinct native type;
the flag's message is "Mixed data types in column" (capital M); each
column carries at most one flag; the coercion failure is consumed
internally (it becomes the Boolean `to_numeric_ok`, never an
exception). -/
theorem C6_object_column_flag (df : DataFrame) (name : String) (cells : List (Option PyVal))
    (hmem : (name, Column.objCol cells) ∈ df.cols)
    (hnodup : (df.cols.map Prod.fst).Nodup) :
    ((∃ m, (name, m) ∈ check_type_consistency df) ↔
      (to_numeric_ok cells = false ∧ 1 < nuniqueTypes cells)) ∧
    (∀ m, (name, m) ∈ check_type_consistency df → m = "Mixed data types in column") ∧
    ((check_type_consistency df).map Prod.fst).Nodup := by
  refine ⟨⟨?_, ?_⟩, ?_, hnodup.sublist (cts_keys_sublist df)⟩
  · rintro ⟨m, hm⟩
    obtain ⟨c, hc, hfc⟩ := mem_cols_of_mem_cts df _ hm
    obtain rfl : c = Column.objCol cells := assoc_value_eq hnodup hc hmem
    simp [type_flag, Column.is_numeric_dtype] at hfc
    exact ⟨hfc.1, hfc.2.1⟩
  · rintro ⟨hfail, htypes⟩
    refine ⟨"Mixed data types in column", ?_⟩
    rw [check_type_consistency, List.mem_filterMap]
    refine ⟨(name, Column.objCol cells), hmem, ?_⟩
    simp [type_flag, Column.is_numeric_dtype, hfail, htypes]
  · intro m hm
    obtain ⟨c, hc, hfc⟩ := mem_cols_of_mem_cts df _ hm
    obtain rfl : c = Column.objCol cells := assoc_value_eq hnodup hc hmem
    simp [type_flag, Column.is_numeric_dtype] at hfc
    exact hfc.2.2.symm

/-- C6 witness: the amended theorem applied to the concrete
mixed-object-column dataset. -/
theorem C6_object_column_flag_witness :
    ((("c", Column.objCol obj6) ∈ df6.cols) ∧ (df6.cols.map Prod.fst).Nodup) ∧
    (((∃ m, ("c", m) ∈ check_type_consistency df6) ↔
      (to_numeric_ok obj6 = false ∧ 1 < nuniqueTypes obj6)) ∧
    (∀ m, ("c", m) ∈ check_type_consistency df6 → m = "Mixed data types in column") ∧
    ((check_type_consistency df6).map Prod.fst).Nodup) :=
  ⟨⟨by with_unfolding_all decide, by with_unfolding_all decide⟩,
   C6_object_column_flag df6 "c" obj6 (by with_unfolding_all decide)
     (by with_unfolding_all decide)⟩

end DQ

namespace DQ

/-- Helper: the for-loop of `_compute_severity` builds exactly the
filter-then-format list of critically missing columns, in order. -/
theorem blocking_foldl_eq (crit : ℚ) (mv : List (String × ℚ)) (acc : List String) :
    mv.foldl (fun acc p => if crit ≤ p.2 then acc ++ [missing_msg p.1 p.2] else acc) acc =
      acc ++ (mv.filter (fun p => decide (crit ≤ p.2))).map (fun p => missing_msg p.1 p.2) := by
  induction mv generalizing acc with
  | nil => simp
  | cons a mv ih =>
      rw [List.foldl_cons, List.filter_cons]
      by_cases h : crit ≤ a.2
      · simp [h, ih]
      · simp [h, ih]

/-- Helper: closed form of `_compute_severity`. -/
theorem compute_severity_spec (cfg : Config) (mv : List (String × ℚ))
    (ti : List (String × String)) (an : List (String × Anomaly)) :
    compute_severity cfg mv ti an =
      (if ((mv.filter (fun p => decide (cfg.missing_critical_threshold ≤ p.2))).map
            (fun p => missing_msg p.1 p.2)) ≠ [] then
        ("HIGH", (mv.filter (fun p => decide (cfg.missing_critical_threshold ≤ p.2))).map
            (fun p => missing_msg p.1 p.2))
      else if ti ≠ [] ∨ an ≠ [] then ("MEDIUM", ([] : List String))
      else ("LOW", ([] : List String))) := by
  rw [compute_severity, blocking_foldl_eq]
  by_cases hbi : ((mv.filter (fun p => decide (cfg.missing_critical_threshold ≤ p.2))).map
      (fun p => missing_msg p.1 p.2)) = []
  · by_cases hti : ti = [] <;> by_cases han : an = [] <;>
      simp [hbi, hti, han]
  · simp [hbi]

/-- Helper: a dataset with at least one row and at least one column is
not `df.empty`. -/
theorem emptyDf_false (df : DataFrame) (hrows : 1 ≤ df.nrows) (hcols : df.cols ≠ []) :
    df.emptyDf = false := by
  simp [DataFrame.emptyDf, hcols]
  omega

/-- C1 counterexample: a dataset with one row but zero declared columns
(`pd.DataFrame(index=[0])`) has at least one row, yet `run` returns the
fixed empty-dataset report (severity HIGH, blocking issues
`["Dataset is empty"]`), not the LOW/empty verdict the claimed
derivation yields for its empty diagnostics. -/
theorem C1_counterexample :
    1 ≤ df_zero_cols.nrows ∧
    (run defaultConfig df_zero_cols).missing_values = [] ∧
    (run defaultConfig df_zero_cols).type_issues = [] ∧
    (run defaultConfig df_zero_cols).anomalies = [] ∧
    ¬ ((run defaultConfig df_zero_cols).severity = "LOW" ∧
       (run defaultConfig df_zero_cols).blocking_issues = []) := by
  with_unfolding_all decide

/-- C1 (amended): for every dataset with at least one row AND at least
one column, `run` derives severity and blocking issues with strict
precedence: blocking issues are exactly the formatted strings of the
columns of `missing_values` (in order) whose recorded fraction reaches
the critical threshold; if non-empty the severity is HIGH; otherwise
MEDIUM when type issues or anomalies exist, else LOW. -/
theorem C1_severity_precedence (cfg : Config) (df : DataFrame)
    (hrows : 1 ≤ df.nrows) (hcols : df.cols ≠ []) :
    (run cfg df).blocking_issues =
      ((run cfg df).missing_values.filter
        (fun p => decide (cfg.missing_critical_threshold ≤ p.2))).map
        (fun p => missing_msg p.1 p.2) ∧
    ((run cfg df).blocking_issues ≠ [] → (run cfg df).severity = "HIGH") ∧
    ((run cfg df).blocking_issues = [] →
      ((run cfg df).type_issues ≠ [] ∨ (run cfg df).anomalies ≠ []) →
      (run cfg df).severity = "MEDIUM") ∧
    ((run cfg df).blocking_issues = [] → (run cfg df).type_issues = [] →
      (run cfg df).anomalies = [] → (run cfg df).severity = "LOW") := by
  have hempty := emptyDf_false df hrows hcols
  simp only [run, hempty, Bool.false_eq_true, if_false]
  rw [compute_severity_spec]
  by_cases hbi : (((check_missing_values df).filter
      (fun p => decide (cfg.missing_critical_threshold ≤ p.2))).map
      (fun p => missing_msg p.1 p.2)) = []
  · by_cases hti : check_type_consistency df = [] <;>
      by_cases han : detect_outliers cfg df = [] <;>
        simp [hbi, hti, han]
  · simp [hbi]

/-- C1 witness: the amended theorem applied to the half-missing-column
dataset, whose verdict is HIGH. -/
theorem C1_severity_precedence_witness :
    (1 ≤ dfW.nrows ∧ dfW.cols ≠ []) ∧
    ((run defaultConfig dfW).blocking_issues =
      ((run defaultConfig dfW).missing_values.filter
        (fun p => decide (defaultConfig.missing_critical_threshold ≤ p.2))).map
        (fun p => missing_msg p.1 p.2) ∧
    ((run defaultConfig dfW).blocking_issues ≠ [] → (run defaultConfig dfW).severity = "HIGH") ∧
    ((run defaultConfig dfW).blocking_issues = [] →
      ((run defaultConfig dfW).type_issues ≠ [] ∨ (run defaultConfig dfW).anomalies ≠ []) →
      (run defaultConfig dfW).severity = "MEDIUM") ∧
    ((run defaultConfig dfW).blocking_issues = [] → (run defaultConfig dfW).type_issues = [] →
      (run defaultConfig dfW).anomalies = [] → (run defaultConfig dfW).severity = "LOW")) :=
  ⟨⟨by decide, by decide⟩,
   C1_severity_precedence defaultConfig dfW (by decide) (by decide)⟩

/-- C3: for every report returned by `run` (the empty-dataset report
included), blocking issues are non-empty iff severity is HIGH; severity
is always one of LOW, MEDIUM, HIGH; and severity is a function of the
report's other fields (here `severity_of_fields` of the summary and the
three diagnostic maps, for the fixed configuration). -/
theorem C3_severity_invariant (cfg : Config) (df : DataFrame) :
    ((run cfg df).blocking_issues ≠ [] ↔ (run cfg df).severity = "HIGH") ∧
    ((run cfg df).severity = "LOW" ∨ (run cfg df).severity = "MEDIUM" ∨
      (run cfg df).severity = "HIGH") ∧
    (run cfg df).severity =
      severity_of_fields cfg (run cfg df).dataset_summary (run cfg df).missing_values
        (run cfg df).type_issues (run cfg df).anomalies := by
  by_cases hempty : df.emptyDf = true
  · simp [run, hempty, empty_dataset_report, severity_of_fields]
  · have hnr : (df.nrows == 0) = false := by
      simp only [DataFrame.emptyDf, Bool.or_eq_true, not_or] at hempty
      simpa using hempty.1
    simp only [run, hempty, Bool.false_eq_true, if_false]
    rw [compute_severity_spec]
    refine ⟨?_, ?_, ?_⟩
    · by_cases hbi : (((check_missing_values df).filter
          (fun p => decide (cfg.missing_critical_threshold ≤ p.2))).map
          (fun p => missing_msg p.1 p.2)) = []
      · by_cases hti : check_type_consistency df = [] <;>
          by_cases han : detect_outliers cfg df = [] <;>
            simp [hbi, hti, han]
      · simp [hbi]
    · by_cases hbi : (((check_missing_values df).filter
          (fun p => decide (cfg.missing_critical_threshold ≤ p.2))).map
          (fun p => missing_msg p.1 p.2)) = []
      · by_cases hti : check_type_consistency df = [] <;>
          by_cases han : detect_outliers cfg df = [] <;>
            simp [hbi, hti, han]
      · simp [hbi]
    · simp only [dataset_summary, severity_of_fields, hnr, Bool.false_eq_true, if_false]
      rw [compute_severity_spec]

end DQ

namespace DQ

/-- Helper: sorting is invariant under permutation of the input. -/
theorem insertionSort_perm_eq (l l2 : List ℚ) (h : l.Perm l2) :
    List.insertionSort (· ≤ ·) l = List.insertionSort (· ≤ ·) l2 :=
  List.eq_of_perm_of_sorted
    ((List.perm_insertionSort _ l).trans (h.trans (List.perm_insertionSort _ l2).symm))
    (List.sorted_insertionSort _ l) (List.sorted_insertionSort _ l2)

/-- C5: for every numeric column and every permutation of its cells
(missing markers included), outlier detection computes the same Q1, Q3,
bounds, outlier count and anomaly record, and recomputing on the same
cells yields identical results. -/
theorem C5_outlier_permutation_invariant (cfg : Config) (cells cells2 : List (Option ℚ))
    (h : cells.Perm cells2) :
    outlier_bounds cfg (cells.filterMap id) = outlier_bounds cfg (cells2.filterMap id) ∧
    outlier_count cfg (cells.filterMap id) = outlier_count cfg (cells2.filterMap id) ∧
    detect_outliers_col cfg (cells.filterMap id) = detect_outliers_col cfg (cells2.filterMap id) ∧
    detect_outliers_col cfg (cells.filterMap id) = detect_outliers_col cfg (cells.filterMap id) := by
  have hp : (cells.filterMap id).Perm (cells2.filterMap id) := h.filterMap id
  have hsort := insertionSort_perm_eq _ _ hp
  have hlen : (cells.filterMap id).length = (cells2.filterMap id).length := hp.length_eq
  have hb : outlier_bounds cfg (cells.filterMap id) = outlier_bounds cfg (cells2.filterMap id) := by
    unfold outlier_bounds quantile
    rw [hsort]
  have hc : outlier_count cfg (cells.filterMap id) = outlier_count cfg (cells2.filterMap id) := by
    unfold outlier_count
    rw [hb]
    exact (hp.filter _).length_eq
  have hie : (cells.filterMap id).isEmpty = (cells2.filterMap id).isEmpty := by
    rw [Bool.eq_iff_iff, List.isEmpty_iff, List.isEmpty_iff,
      ← List.length_eq_zero, ← List.length_eq_zero, hlen]
  refine ⟨hb, hc, ?_, rfl⟩
  simp only [detect_outliers_col]
  rw [hie, hc, hlen]

/-- C5 witness: the theorem applied to a column and a transposition of
its first two cells. -/
theorem C5_outlier_permutation_invariant_witness :
    (([some 1, none, some 2] : List (Option ℚ)).Perm [none, some 1, some 2]) ∧
    (outlier_bounds defaultConfig (([some 1, none, some 2] : List (Option ℚ)).filterMap id) =
      outlier_bounds defaultConfig (([none, some 1, some 2] : List (Option ℚ)).filterMap id) ∧
    outlier_count defaultConfig (([some 1, none, some 2] : List (Option ℚ)).filterMap id) =
      outlier_count defaultConfig (([none, some 1, some 2] : List (Option ℚ)).filterMap id) ∧
    detect_outliers_col defaultConfig (([some 1, none, some 2] : List (Option ℚ)).filterMap id) =
      detect_outliers_col defaultConfig (([none, some 1, some 2] : List (Option ℚ)).filterMap id) ∧
    detect_outliers_col defaultConfig (([some 1, none, some 2] : List (Option ℚ)).filterMap id) =
      detect_outliers_col defaultConfig (([some 1, none, some 2] : List (Option ℚ)).filterMap id)) :=
  ⟨List.Perm.swap none (some 1) [some 2],
   C5_outlier_permutation_invariant defaultConfig _ _ (List.Perm.swap none (some 1) [some 2])⟩

end DQ

namespace Audit

/-- Helper: a sequence of `log_action` calls appends in order. -/
theorem foldl_log_action (calls acc : List LogEntry) :
    calls.foldl log_action acc = acc ++ calls := by
  induction calls generalizing acc with
  | nil => simp
  | cons e calls ih => simp [log_action, ih]

/-- C8: after any sequence of log calls, querying by agent name returns
exactly the logged records with that name, in insertion order; the two
filters are optional, exact-match, and AND-combined when both are
given. -/
theorem C8_query_filters (calls : List LogEntry) (name t : String)
    (hn : name ≠ "") (ht : t ≠ "") :
    calls.foldl log_action [] = calls ∧
    query_logs (calls.foldl log_action []) (some name) none =
      calls.filter (fun e => e.agent_name == name) ∧
    query_logs (calls.foldl log_action []) none (some t) =
      calls.filter (fun e => e.action_type == t) ∧
    query_logs (calls.foldl log_action []) (some name) (some t) =
      calls.filter (fun e => e.agent_name == name && e.action_type == t) := by
  have hfold : calls.foldl log_action [] = calls := by
    simpa using foldl_log_action calls []
  have htn : truthyStr (some name) = true := by simp [truthyStr, hn]
  have htt : truthyStr (some t) = true := by simp [truthyStr, ht]
  have htnone : truthyStr none = false := rfl
  refine ⟨hfold, ?_, ?_, ?_⟩ <;>
    simp [query_logs, htn, htt, htnone, hfold, List.filter_filter, Bool.and_comm]

/-- C8 witness: the theorem applied to two concrete records and the
filters "X" and "validation". -/
theorem C8_query_filters_witness :
    (("X" : String) ≠ "" ∧ ("validation" : String) ≠ "") ∧
    ([e1, e2].foldl log_action [] = [e1, e2] ∧
    query_logs ([e1, e2].foldl log_action []) (some "X") none =
      [e1, e2].filter (fun e => e.agent_name == "X") ∧
    query_logs ([e1, e2].foldl log_action []) none (some "validation") =
      [e1, e2].filter (fun e => e.action_type == "validation") ∧
    query_logs ([e1, e2].foldl log_action []) (some "X") (some "validation") =
      [e1, e2].filter (fun e => e.agent_name == "X" && e.action_type == "validation")) :=
  ⟨⟨by decide, by decide⟩,
   C8_query_filters [e1, e2] "X" "validation" (by decide) (by decide)⟩

end Audit
